import Mathlib

/-!
Verification of the ROOTfileMerger repository (mergeOutput.py and
jobScriptGenerator.py) against its natural-language specification.

Strings from the Python code are modelled as lists of characters
(`Str := List Char`), so that all string operations are structural
recursions the kernel can evaluate.  The filesystem is modelled by the
data the code consumes: the result of `os.walk` is a list of
(directory, filenames) pairs, `os.path.getsize` is an oracle
`Str → Option Nat` (`none` models a raised `OSError`), and the external
`TFileMerger` engine is a record accumulating the calls made to it, with
its merge outcome supplied as a boolean parameter.
-/

/-- Filenames, paths and patterns as character lists. -/
abbrev Str : Type := List Char

/-- Boolean test that the first list is a prefix of the second. -/
def startsList : List Char → List Char → Bool
  | [], _ => true
  | _ :: _, [] => false
  | a :: as, b :: bs => a = b && startsList as bs

/-- Boolean substring containment, as Python's `needle in haystack`. -/
def subList (needle : List Char) : List Char → Bool
  | [] => needle.isEmpty
  | b :: bs => startsList needle (b :: bs) || subList needle bs

/-- Boolean suffix test, as Python's `str.endswith`. -/
def endsList (suf cs : List Char) : Bool :=
  startsList suf.reverse cs.reverse

/-- ASCII lower-casing of one character, as Python's `str.lower` acts on
the characters appearing in this program's patterns and filenames. -/
def lowerChar (c : Char) : Char :=
  if 65 ≤ c.toNat && c.toNat ≤ 90 then Char.ofNat (c.toNat + 32) else c

/-- Lower-casing of a whole string. -/
def lowerStr (cs : Str) : Str :=
  cs.map lowerChar

/-- Text of the pattern before the first '*', as the Python expression
`mergeFilePattern.split('*')[0]`. -/
def beforeStar (pat : Str) : Str :=
  pat.takeWhile (fun c => c != '*')

/-- The matching condition of `gather_files` (mergeOutput.py line 35):
`f.lower().endswith('.root') and mergeFilePattern.split('*')[0].lower() in f.lower()`. -/
def matchesFile (pat f : Str) : Bool :=
  endsList (".root".data) (lowerStr f) && subList (lowerStr (beforeStar pat)) (lowerStr f)

/-- Path joining `os.path.join(root, f)` for a relative filename `f`
under a directory `root` (the only case this program produces). -/
def pathJoin (root f : Str) : Str :=
  root ++ ('/' :: f)

/-- One abstract log record per `self.log` / `logger.info` call that
carries data; decorative separator lines are not modelled. -/
inductive LogEntry : Type
  /-- count of matching files in one directory (gather_files). -/
  | dirCount (dir : Str) (n : Nat)
  /-- per-file size line (estimate_total_size, success branch). -/
  | fileSize (path : Str) (size : Nat)
  /-- per-file stat-failure line (estimate_total_size, except branch). -/
  | sizeFail (path : Str)
  /-- estimated-total line (estimate_total_size). -/
  | totalEstimate (n : Nat)
  /-- per-file added-to-merge-list line (merge_files). -/
  | addedFile (path : Str)
  /-- start-of-merge line (merge_files). -/
  | mergeStart
  /-- merge-failed line (merge_files). -/
  | mergeFailed
  /-- merge-succeeded line (merge_files). -/
  | mergeOk
  /-- merged-file-size line (compare_sizes, success branch). -/
  | mergedFileSize (n : Nat)
  /-- signed size-difference line (compare_sizes, success branch). -/
  | sizeDiff (d : Int)
  /-- failed-to-stat-output line (compare_sizes, except branch). -/
  | compareFail
  /-- overall-failure line (main, else branch). -/
  | overallFailed
  /-- elapsed-time line (main). -/
  | elapsed
deriving DecidableEq

/-- True exactly on the log entries emitted by `compare_sizes`. -/
def LogEntry.isCompareEntry : LogEntry → Bool
  | LogEntry.mergedFileSize _ => true
  | LogEntry.sizeDiff _ => true
  | LogEntry.compareFail => true
  | _ => false

/-- The mutable collection state of a `RootFileMerger` instance:
`file_dict` (directory → matching files, insertion-ordered as a Python
dict) and `all_files` (mergeOutput.py lines 21-22). -/
structure MergerState : Type where
  file_dict : List (Str × List Str)
  all_files : List Str
deriving DecidableEq

/-- Python dict assignment `d[k] = v`: overwrite the entry of an
existing key in place, otherwise append a new entry. -/
def updateAssoc (l : List (Str × List Str)) (k : Str) (v : List Str) :
    List (Str × List Str) :=
  match l with
  | [] => [(k, v)]
  | (k0, v0) :: t => if k0 = k then (k, v) :: t else (k0, v0) :: updateAssoc t k v

/-- The matching files of one `os.walk` entry, with full paths:
`[os.path.join(root, f) for f in files if ...]` (line 34-35). -/
def matchingIn (pat : Str) (entry : Str × List Str) : List Str :=
  (entry.2.filter (matchesFile pat)).map (pathJoin entry.1)

/-- One iteration of the `for root, dirs, files in os.walk(...)` loop of
`gather_files` (lines 33-41), acting on the state and the log. -/
def gatherStep (pat : Str) (acc : MergerState × List LogEntry)
    (entry : Str × List Str) : MergerState × List LogEntry :=
  let matching := matchingIn pat entry
  if matching.isEmpty then acc
  else
    (⟨updateAssoc acc.1.file_dict entry.1 matching, acc.1.all_files ++ matching⟩,
     acc.2 ++ [LogEntry.dirCount entry.1 matching.length])

/-- `RootFileMerger.gather_files` (lines 28-41): fold the walk of the
base directory over the instance state, returning the new state and the
log lines emitted by this call. -/
def gather_files (pat : Str) (walk : List (Str × List Str)) (s : MergerState) :
    MergerState × List LogEntry :=
  walk.foldl (gatherStep pat) (s, [])

/-- One iteration of the size loop of `estimate_total_size`
(lines 49-56): a successful `os.path.getsize` adds to the total and logs
the size, a failure is caught and logged. -/
def estStep (sz : Str → Option Nat) (acc : Nat × List LogEntry) (f : Str) :
    Nat × List LogEntry :=
  match sz f with
  | some n => (acc.1 + n, acc.2 ++ [LogEntry.fileSize f n])
  | none => (acc.1, acc.2 ++ [LogEntry.sizeFail f])

/-- `RootFileMerger.estimate_total_size` (lines 43-63): best-effort sum
of the sizes of `all_files`, with the final total logged. -/
def estimate_total_size (sz : Str → Option Nat) (files : List Str) :
    Nat × List LogEntry :=
  let r := files.foldl (estStep sz) (0, [])
  (r.1, r.2 ++ [LogEntry.totalEstimate r.1])

/-- The external `TFileMerger` engine as the record of calls made to it:
the configured output file, the ordered input list built by `AddFile`,
and the number of `Merge` invocations. -/
structure TFileMerger : Type where
  output_file : Str
  inputs : List Str
  mergeCalls : Nat
deriving DecidableEq

/-- `RootFileMerger.merge_files` (lines 65-83): construct the engine,
add every file of `all_files` in order, invoke `Merge` once (its boolean
outcome is the parameter `engineResult`), and return the engine state,
the returned boolean, and the log lines. -/
def merge_files (all_files : List Str) (output_file_name : Str)
    (engineResult : Bool) : TFileMerger × Bool × List LogEntry :=
  let r := all_files.foldl
    (fun (acc : TFileMerger × List LogEntry) f =>
      ({ acc.1 with inputs := acc.1.inputs ++ [f] },
       acc.2 ++ [LogEntry.addedFile f]))
    (⟨output_file_name, [], 0⟩, [])
  ({ r.1 with mergeCalls := r.1.mergeCalls + 1 },
   engineResult,
   r.2 ++ [LogEntry.mergeStart] ++
     [if engineResult then LogEntry.mergeOk else LogEntry.mergeFailed])

/-- `RootFileMerger.compare_sizes` (lines 85-100): stat the output file;
on success log its size and the signed difference `final - estimated`
and return the final size, on failure log and return `None`. -/
def compare_sizes (sz : Str → Option Nat) (output_file_name : Str)
    (estimated_size : Nat) : Option Nat × List LogEntry :=
  match sz output_file_name with
  | some final =>
      (some final,
       [LogEntry.mergedFileSize final,
        LogEntry.sizeDiff ((final : Int) - (estimated_size : Int))])
  | none => (none, [LogEntry.compareFail])

/-- Everything observable about one run of `main` (lines 102-141): the
final collection state, the estimate, the engine state, the merge
outcome, whether `compare_sizes` was invoked, the log stream, and the
exception escaping `main`, if any. -/
structure MainResult : Type where
  state : MergerState
  estimated : Nat
  engine : TFileMerger
  mergeSuccess : Bool
  compareInvoked : Bool
  logs : List LogEntry
  raised : Option Str
deriving DecidableEq

/-- The `main` flow of mergeOutput.py (lines 102-141): gather, estimate,
merge, then compare on success or log the overall failure otherwise,
then the elapsed-time line.  Line 141 executes `self.log(...)` with
`self` unbound in the function `main`, so every run ends by raising a
`NameError`; the `raised` field records it. -/
def main_flow (pat : Str) (walk : List (Str × List Str)) (sz : Str → Option Nat)
    (output_file_name : Str) (engineResult : Bool) : MainResult :=
  let g := gather_files pat walk ⟨[], []⟩
  let e := estimate_total_size sz g.1.all_files
  let m := merge_files g.1.all_files output_file_name engineResult
  let cmpLogs :=
    if m.2.1 then (compare_sizes sz output_file_name e.1).2
    else [LogEntry.overallFailed]
  { state := g.1
    estimated := e.1
    engine := m.1
    mergeSuccess := m.2.1
    compareInvoked := m.2.1
    logs := g.2 ++ e.2 ++ m.2.2 ++ cmpLogs ++ [LogEntry.elapsed]
    raised := some (("NameError: name self is not defined").data) }

/-- One line of the generated local shell script
(jobScriptGenerator.py, `generate_local_merge_script`, lines 14-31),
with the variable parts of each templated line as arguments. -/
inductive ScriptLine : Type
  /-- the `#!/bin/bash` line. -/
  | shebang
  /-- the `MERGE_DIR="<storage_path>"` line. -/
  | setMergeDir (storage_path : Str)
  /-- the banner `echo` line announcing the ntuple path. -/
  | echoBanner
  /-- an empty line. -/
  | blank
  /-- the per-subdirectory `echo "Processing directory: <subdir>"` line. -/
  | echoProcessing (subdir : Str)
  /-- the per-subdirectory `python3 -u mergeOutput.py --dir ... --pat ...
  --out ...` invocation line, with the computed argument values. -/
  | invoke (dir pat out : Str)
  /-- the final `echo "All merge jobs completed."` line. -/
  | echoAllCompleted
deriving DecidableEq

/-- True exactly on orchestrator-invocation lines. -/
def ScriptLine.isInvoke : ScriptLine → Bool
  | ScriptLine.invoke _ _ _ => true
  | _ => false

/-- The artifact written by `generate_local_merge_script`: its path, its
lines, and the permission bits set by `os.chmod` after writing. -/
structure GeneratedScript : Type where
  path : Str
  content : List ScriptLine
  mode : Nat
deriving DecidableEq

/-- `generate_local_merge_script` (jobScriptGenerator.py lines 6-36),
applied to the subdirectory listing `subdirs` of `storage_path`: the
header lines, then per subdirectory an echo line, an invocation line and
a blank, then the completion echo; the file is written to
`scriptForMerge` and chmod-ed to `0o755`. -/
def generate_local_merge_script (storage_path scriptForMerge pat : Str)
    (subdirs : List Str) : GeneratedScript :=
  let lines :=
    [ScriptLine.shebang, ScriptLine.setMergeDir storage_path,
     ScriptLine.echoBanner, ScriptLine.blank]
  let lines := subdirs.foldl
    (fun acc d =>
      acc ++ [ScriptLine.echoProcessing d,
              ScriptLine.invoke (pathJoin storage_path d) pat
                (pathJoin storage_path d ++ (".root").data),
              ScriptLine.blank])
    lines
  { path := scriptForMerge
    content := lines ++ [ScriptLine.echoAllCompleted]
    mode := 0o755 }

/-- One line of the generated Condor submission file
(`generate_condorMerge_submission_file`, lines 44-67). -/
inductive SubLine : Type
  /-- the `Executable = mergeOutput.py` header line. -/
  | executableLine
  /-- the `getenv = True` header line. -/
  | getenvLine
  /-- the `should_transfer_files = No` header line. -/
  | transferLine
  /-- the `+JobFlavour = "tomorrow"` header line. -/
  | jobFlavourLine
  /-- an empty line. -/
  | blank
  /-- the per-job `arguments = --dir ... --pat ... --out ...` line. -/
  | argumentsLine (dir pat out : Str)
  /-- the per-job `Output = merge_condor_logs/<subdir>_$(Cluster)_$(Process).out` line. -/
  | outputLine (subdir : Str)
  /-- the per-job `Error = merge_condor_logs/<subdir>_$(Cluster)_$(Process).err` line. -/
  | errorLine (subdir : Str)
  /-- the per-job `Log = merge_condor_logs/<subdir>_$(Cluster).log` line. -/
  | logLine (subdir : Str)
  /-- the `queue` directive closing one job stanza. -/
  | queue
deriving DecidableEq

/-- True exactly on `queue` directive lines. -/
def SubLine.isQueue : SubLine → Bool
  | SubLine.queue => true
  | _ => false

/-- True exactly on per-job `arguments` lines. -/
def SubLine.isArguments : SubLine → Bool
  | SubLine.argumentsLine _ _ _ => true
  | _ => false

/-- The artifact written by `generate_condorMerge_submission_file`: its
path and its lines.  The function also creates the `merge_condor_logs`
directory (an idempotent `os.makedirs`), a side effect no claim here
depends on. -/
structure CondorFile : Type where
  path : Str
  content : List SubLine
deriving DecidableEq

/-- `generate_condorMerge_submission_file` (lines 38-71), applied to the
subdirectory listing `subdirs` of `storage_path`: the four header lines
and a blank, then per subdirectory one job stanza of an arguments line,
three log-path lines, the `queue` directive and a blank. -/
def generate_condorMerge_submission_file (storage_path scriptForMerge pat : Str)
    (subdirs : List Str) : CondorFile :=
  let lines :=
    [SubLine.executableLine, SubLine.getenvLine, SubLine.transferLine,
     SubLine.jobFlavourLine, SubLine.blank]
  let lines := subdirs.foldl
    (fun acc d =>
      acc ++ [SubLine.argumentsLine (pathJoin storage_path d) pat
                (pathJoin storage_path d ++ (".root").data),
              SubLine.outputLine d, SubLine.errorLine d, SubLine.logLine d,
              SubLine.queue, SubLine.blank])
    lines
  { path := scriptForMerge
    content := lines }

/-! ### Concrete fixtures used by witnesses and counterexample evidence -/

/-- The pattern of the spec's examples, `out_*.root`. -/
def demoPat : Str := ("out_*.root").data

/-- A base directory for the concrete examples. -/
def demoDir : Str := ("/base").data

/-- The filenames of the spec's discovery example. -/
def demoFiles : List Str :=
  [("out_1.root").data, ("out_2.root").data, ("skip.dat").data]

/-- An `os.walk` result: one directory holding the example files. -/
def demoWalk : List (Str × List Str) := [(demoDir, demoFiles)]

/-- The output file name of the examples. -/
def demoOut : Str := ("merged.root").data

/-- A size oracle: the two matching input files are 1000 bytes each, the
merged output is 1900 bytes, anything else fails to stat. -/
def demoSz : Str → Option Nat := fun f =>
  if f = pathJoin demoDir (("out_1.root").data) then some 1000
  else if f = pathJoin demoDir (("out_2.root").data) then some 1000
  else if f = demoOut then some 1900
  else none

/-! ### Helper lemmas about the folds -/

/-- One `gather_files` iteration appends exactly the matching files of
the entry to `all_files`. -/
theorem gatherStep_all_files (pat : Str) (acc : MergerState × List LogEntry)
    (entry : Str × List Str) :
    (gatherStep pat acc entry).1.all_files
      = acc.1.all_files ++ matchingIn pat entry := by
  unfold gatherStep
  by_cases h : (matchingIn pat entry).isEmpty
  · simp only [h, if_pos]
    rw [List.isEmpty_iff] at h
    simp [h]
  · simp [h]

/-- The flat list of matching full paths over a whole walk. -/
def gatheredFiles (pat : Str) (walk : List (Str × List Str)) : List Str :=
  (walk.map (matchingIn pat)).flatten

/-- Folding the gather step over a walk appends `gatheredFiles` to the
accumulated `all_files`, for any starting accumulator. -/
theorem gather_foldl_all_files (pat : Str) (walk : List (Str × List Str)) :
    ∀ acc : MergerState × List LogEntry,
      (walk.foldl (gatherStep pat) acc).1.all_files
        = acc.1.all_files ++ gatheredFiles pat walk := by
  induction walk with
  | nil => intro acc; simp [gatheredFiles]
  | cons e w ih =>
      intro acc
      rw [List.foldl_cons, ih (gatherStep pat acc e), gatherStep_all_files]
      simp [gatheredFiles]

/-- The `all_files` collection after `gather_files`. -/
theorem gather_files_all_files (pat : Str) (walk : List (Str × List Str))
    (s : MergerState) :
    (gather_files pat walk s).1.all_files = s.all_files ++ gatheredFiles pat walk :=
  gather_foldl_all_files pat walk (s, [])

/-- Gather-phase log lines are never compare-phase lines. -/
theorem gather_foldl_no_compare (pat : Str) (walk : List (Str × List Str)) :
    ∀ acc : MergerState × List LogEntry,
      (∀ x ∈ acc.2, x.isCompareEntry = false) →
      ∀ x ∈ (walk.foldl (gatherStep pat) acc).2, x.isCompareEntry = false := by
  induction walk with
  | nil => intro acc h; simpa using h
  | cons e w ih =>
      intro acc h
      rw [List.foldl_cons]
      refine ih (gatherStep pat acc e) ?_
      intro x hx
      unfold gatherStep at hx
      by_cases he : (matchingIn pat e).isEmpty
      · exact h x (by simpa [he] using hx)
      · simp only [he, if_neg, Bool.false_eq_true, not_false_iff] at hx
        rcases List.mem_append.1 hx with h1 | h2
        · exact h x h1
        · rcases List.mem_singleton.1 h2 with rfl
          rfl

/-- The running total of the estimate fold, for any accumulator. -/
theorem est_foldl_total (sz : Str → Option Nat) (files : List Str) :
    ∀ acc : Nat × List LogEntry,
      (files.foldl (estStep sz) acc).1
        = acc.1 + (files.map (fun f => (sz f).getD 0)).sum := by
  induction files with
  | nil => intro acc; simp
  | cons f fs ih =>
      intro acc
      rw [List.foldl_cons, ih (estStep sz acc f)]
      unfold estStep
      cases hf : sz f <;> simp [hf, Nat.add_assoc]

/-- The total returned by `estimate_total_size` is the sum of the sizes
of the files whose stat succeeds (a failed stat contributes nothing). -/
theorem estimate_total_size_total (sz : Str → Option Nat) (files : List Str) :
    (estimate_total_size sz files).1 = (files.map (fun f => (sz f).getD 0)).sum := by
  unfold estimate_total_size
  simpa using est_foldl_total sz files (0, [])

/-- Log lines already accumulated survive the estimate fold. -/
theorem est_foldl_mono (sz : Str → Option Nat) (files : List Str) :
    ∀ (acc : Nat × List LogEntry) (x : LogEntry), x ∈ acc.2 →
      x ∈ (files.foldl (estStep sz) acc).2 := by
  induction files with
  | nil => intro acc x hx; simpa using hx
  | cons f fs ih =>
      intro acc x hx
      rw [List.foldl_cons]
      refine ih (estStep sz acc f) x ?_
      unfold estStep
      cases hf : sz f <;> simp [hx]

/-- Every file of the list whose stat fails gets a `sizeFail` log line
during the estimate fold. -/
theorem est_foldl_sizeFail (sz : Str → Option Nat) (files : List Str) :
    ∀ (acc : Nat × List LogEntry) (f : Str), f ∈ files → sz f = none →
      LogEntry.sizeFail f ∈ (files.foldl (estStep sz) acc).2 := by
  induction files with
  | nil => intro acc f hf; simp at hf
  | cons g gs ih =>
      intro acc f hf hnone
      rw [List.foldl_cons]
      rcases List.mem_cons.1 hf with rfl | hmem
      · refine est_foldl_mono sz gs (estStep sz acc f) _ ?_
        unfold estStep
        rw [hnone]
        simp
      · exact ih (estStep sz acc g) f hmem hnone

/-- Estimate-phase log lines are never compare-phase lines. -/
theorem est_foldl_no_compare (sz : Str → Option Nat) (files : List Str) :
    ∀ acc : Nat × List LogEntry,
      (∀ x ∈ acc.2, x.isCompareEntry = false) →
      ∀ x ∈ (files.foldl (estStep sz) acc).2, x.isCompareEntry = false := by
  induction files with
  | nil => intro acc h; simpa using h
  | cons f fs ih =>
      intro acc h
      rw [List.foldl_cons]
      refine ih (estStep sz acc f) ?_
      intro x hx
      unfold estStep at hx
      cases hf : sz f <;> simp [hf] at hx <;>
        rcases hx with h1 | rfl
      · exact h x h1
      · rfl
      · exact h x h1
      · rfl

/-- The input list built by the add-file fold of `merge_files`, for any
accumulator: the files are appended in order. -/
theorem merge_foldl_inputs (files : List Str) :
    ∀ acc : TFileMerger × List LogEntry,
      (files.foldl
        (fun (acc : TFileMerger × List LogEntry) f =>
          ({ acc.1 with inputs := acc.1.inputs ++ [f] },
           acc.2 ++ [LogEntry.addedFile f])) acc).1.inputs
        = acc.1.inputs ++ files := by
  induction files with
  | nil => intro acc; simp
  | cons f fs ih =>
      intro acc
      rw [List.foldl_cons, ih]
      simp

/-- The add-file fold of `merge_files` never touches `mergeCalls`. -/
theorem merge_foldl_mergeCalls (files : List Str) :
    ∀ acc : TFileMerger × List LogEntry,
      (files.foldl
        (fun (acc : TFileMerger × List LogEntry) f =>
          ({ acc.1 with inputs := acc.1.inputs ++ [f] },
           acc.2 ++ [LogEntry.addedFile f])) acc).1.mergeCalls
        = acc.1.mergeCalls := by
  induction files with
  | nil => intro acc; simp
  | cons f fs ih =>
      intro acc
      rw [List.foldl_cons, ih]

/-- Merge-phase fold log lines are never compare-phase lines. -/
theorem merge_foldl_no_compare (files : List Str) :
    ∀ acc : TFileMerger × List LogEntry,
      (∀ x ∈ acc.2, x.isCompareEntry = false) →
      ∀ x ∈ (files.foldl
        (fun (acc : TFileMerger × List LogEntry) f =>
          ({ acc.1 with inputs := acc.1.inputs ++ [f] },
           acc.2 ++ [LogEntry.addedFile f])) acc).2,
        x.isCompareEntry = false := by
  induction files with
  | nil => intro acc h; simpa using h
  | cons f fs ih =>
      intro acc h
      rw [List.foldl_cons]
      refine ih _ ?_
      intro x hx
      rcases List.mem_append.1 hx with h1 | h2
      · exact h x h1
      · rcases List.mem_singleton.1 h2 with rfl
        rfl

/-- The per-subdirectory invocation count of the local-script fold. -/
theorem local_foldl_invoke_count (storage_path pat : Str) (subdirs : List Str) :
    ∀ acc : List ScriptLine,
      ((subdirs.foldl
        (fun acc d =>
          acc ++ [ScriptLine.echoProcessing d,
                  ScriptLine.invoke (pathJoin storage_path d) pat
                    (pathJoin storage_path d ++ (".root").data),
                  ScriptLine.blank]) acc).filter ScriptLine.isInvoke).length
        = (acc.filter ScriptLine.isInvoke).length + subdirs.length := by
  induction subdirs with
  | nil => intro acc; simp
  | cons d ds ih =>
      intro acc
      rw [List.foldl_cons, ih]
      simp [List.filter_append, ScriptLine.isInvoke]
      omega

/-- The per-subdirectory queue and arguments counts of the Condor fold. -/
theorem condor_foldl_counts (storage_path pat : Str) (subdirs : List Str) :
    ∀ acc : List SubLine,
      (((subdirs.foldl
        (fun acc d =>
          acc ++ [SubLine.argumentsLine (pathJoin storage_path d) pat
                    (pathJoin storage_path d ++ (".root").data),
                  SubLine.outputLine d, SubLine.errorLine d, SubLine.logLine d,
                  SubLine.queue, SubLine.blank]) acc).filter SubLine.isQueue).length
        = (acc.filter SubLine.isQueue).length + subdirs.length)
      ∧ (((subdirs.foldl
        (fun acc d =>
          acc ++ [SubLine.argumentsLine (pathJoin storage_path d) pat
                    (pathJoin storage_path d ++ (".root").data),
                  SubLine.outputLine d, SubLine.errorLine d, SubLine.logLine d,
                  SubLine.queue, SubLine.blank]) acc).filter SubLine.isArguments).length
        = (acc.filter SubLine.isArguments).length + subdirs.length) := by
  induction subdirs with
  | nil => intro acc; simp
  | cons d ds ih =>
      intro acc
      rw [List.foldl_cons]
      refine ⟨?_, ?_⟩
      · rw [(ih _).1]
        simp [List.filter_append, SubLine.isQueue, SubLine.isArguments]
        omega
      · rw [(ih _).2]
        simp [List.filter_append, SubLine.isQueue, SubLine.isArguments]
        omega

/-- Joining two different relative names under the same directory gives
different paths. -/
theorem pathJoin_right_injective (dir : Str) {a b : Str}
    (h : pathJoin dir a = pathJoin dir b) : a = b := by
  unfold pathJoin at h
  have h2 := List.append_cancel_left h
  simpa using h2

/-- A file of one walk entry appears among the entry's matching paths
exactly when it satisfies the matching condition. -/
theorem mem_matchingIn_iff (pat dir : Str) (files : List Str) (f : Str)
    (hf : f ∈ files) :
    pathJoin dir f ∈ matchingIn pat (dir, files) ↔ matchesFile pat f = true := by
  unfold matchingIn
  constructor
  · intro h
    rcases List.mem_map.1 h with ⟨a, ha, heq⟩
    rcases pathJoin_right_injective dir heq
    exact (List.mem_filter.1 ha).2
  · intro h
    exact List.mem_map.2 ⟨f, List.mem_filter.2 ⟨hf, h⟩, rfl⟩

/-- The boolean returned by `merge_files` is the engine's outcome. -/
theorem merge_files_outcome (files : List Str) (out : Str) (r : Bool) :
    (merge_files files out r).2.1 = r := rfl

/-! ### Claim theorems -/

/-- C1: during the recursive walk, discovery records a file if and only
if its lowercased name ends with the fixed extension `.root` and
contains, case-insensitively, the pattern text before the first `*`;
with pattern `out_*.root`, `notout_1.root` is included, `skip.dat` is
excluded, and `out_1.root`, `out_2.root` are included. -/
theorem gather_files_matching_rule :
    (∀ (pat dir : Str) (files : List Str) (f : Str), f ∈ files →
      (pathJoin dir f ∈ (gather_files pat [(dir, files)] ⟨[], []⟩).1.all_files
        ↔ matchesFile pat f = true))
  ∧ matchesFile demoPat (("notout_1.root").data) = true
  ∧ matchesFile demoPat (("skip.dat").data) = false
  ∧ matchesFile demoPat (("out_1.root").data) = true
  ∧ matchesFile demoPat (("out_2.root").data) = true
  ∧ (gather_files demoPat demoWalk ⟨[], []⟩).1.all_files
      = [pathJoin demoDir (("out_1.root").data),
         pathJoin demoDir (("out_2.root").data)] := by
  refine ⟨?_, by decide, by decide, by decide, by decide, by decide⟩
  intro pat dir files f hf
  rw [gather_files_all_files, List.nil_append]
  have hg : gatheredFiles pat [(dir, files)] = matchingIn pat (dir, files) := by
    simp [gatheredFiles]
  rw [hg]
  exact mem_matchingIn_iff pat dir files f hf

/-- C1 witness: `out_1.root` in the demo directory is recorded. -/
theorem gather_files_matching_rule_witness :
    pathJoin demoDir (("out_1.root").data)
      ∈ (gather_files demoPat [(demoDir, demoFiles)] ⟨[], []⟩).1.all_files :=
  (gather_files_matching_rule.1 demoPat demoDir demoFiles
    (("out_1.root").data) (by decide)).mpr (by decide)

/-- C2 evidence: on a run whose merge engine reports failure, the
failure is logged and `compare_sizes` is skipped, but `main` still ends
by raising a `NameError`, because line 141 of mergeOutput.py refers to
`self`, which is not defined in the function `main`. -/
theorem main_flow_raises_name_error :
    (main_flow demoPat demoWalk demoSz demoOut false).mergeSuccess = false
  ∧ LogEntry.overallFailed ∈ (main_flow demoPat demoWalk demoSz demoOut false).logs
  ∧ (main_flow demoPat demoWalk demoSz demoOut false).raised
      = some (("NameError: name self is not defined").data) :=
  ⟨by decide, by decide, by decide⟩

/-- C3: when every stat succeeds, `estimate_total_size` returns exactly
the sum of the reported sizes, and removing one file from the list
lowers the estimate by exactly that file's size. -/
theorem estimate_total_size_exact_sum (sz : Str → Option Nat) :
    (∀ files : List Str, (∀ f ∈ files, (sz f).isSome = true) →
      (estimate_total_size sz files).1
        = (files.map (fun f => (sz f).getD 0)).sum)
  ∧ (∀ (l1 l2 : List Str) (x : Str) (n : Nat), sz x = some n →
      (∀ f ∈ l1 ++ x :: l2, (sz f).isSome = true) →
      (estimate_total_size sz (l1 ++ x :: l2)).1
        = (estimate_total_size sz (l1 ++ l2)).1 + n) := by
  constructor
  · intro files _
    exact estimate_total_size_total sz files
  · intro l1 l2 x n hx _
    rw [estimate_total_size_total, estimate_total_size_total]
    simp [hx]
    omega

/-- C3 witness: the two 1000-byte demo files sum to 2000 bytes, and
dropping the second one lowers the estimate by 1000. -/
theorem estimate_total_size_exact_sum_witness :
    (estimate_total_size demoSz
        [pathJoin demoDir (("out_1.root").data),
         pathJoin demoDir (("out_2.root").data)]).1
      = ([pathJoin demoDir (("out_1.root").data),
          pathJoin demoDir (("out_2.root").data)].map
            (fun f => (demoSz f).getD 0)).sum
  ∧ (estimate_total_size demoSz
        [pathJoin demoDir (("out_1.root").data),
         pathJoin demoDir (("out_2.root").data)]).1
      = (estimate_total_size demoSz
          [pathJoin demoDir (("out_1.root").data)]).1 + 1000 :=
  ⟨(estimate_total_size_exact_sum demoSz).1 _ (by decide),
   (estimate_total_size_exact_sum demoSz).2
     [pathJoin demoDir (("out_1.root").data)] [] _ 1000 (by decide) (by decide)⟩

/-- C4: `merge_files` adds each discovered file to the engine's input
list exactly once, in discovery order, invokes the merge operation
exactly once, and returns the engine's boolean outcome. -/
theorem merge_files_engine_contract (files : List Str) (out : Str) (r : Bool) :
    (merge_files files out r).1.inputs = files
  ∧ (merge_files files out r).1.mergeCalls = 1
  ∧ (merge_files files out r).2.1 = r := by
  refine ⟨?_, ?_, rfl⟩
  · unfold merge_files
    simpa using merge_foldl_inputs files (⟨out, [], 0⟩, [])
  · unfold merge_files
    simpa using merge_foldl_mergeCalls files (⟨out, [], 0⟩, [])

/-- The log stream of a failed run, decomposed into its phases. -/
theorem main_flow_failure_logs (pat : Str) (walk : List (Str × List Str))
    (sz : Str → Option Nat) (out : Str) :
    (main_flow pat walk sz out false).logs
      = (gather_files pat walk ⟨[], []⟩).2
        ++ (estimate_total_size sz (gather_files pat walk ⟨[], []⟩).1.all_files).2
        ++ (merge_files (gather_files pat walk ⟨[], []⟩).1.all_files out false).2.2
        ++ [LogEntry.overallFailed] ++ [LogEntry.elapsed] := rfl

/-- C5: in every run in which the merge engine reports failure, the
compare step is never invoked and no compare-phase log line (merged
size, size difference or compare failure) is emitted. -/
theorem merge_failure_skips_compare (pat : Str) (walk : List (Str × List Str))
    (sz : Str → Option Nat) (out : Str) :
    (main_flow pat walk sz out false).compareInvoked = false
  ∧ ∀ x ∈ (main_flow pat walk sz out false).logs, x.isCompareEntry = false := by
  refine ⟨rfl, ?_⟩
  intro x hx
  rw [main_flow_failure_logs] at hx
  rcases List.mem_append.1 hx with hx | hel
  case inr => rcases List.mem_singleton.1 hel with rfl; rfl
  rcases List.mem_append.1 hx with hx | hof
  case inr => rcases List.mem_singleton.1 hof with rfl; rfl
  rcases List.mem_append.1 hx with hx | hm
  case inr =>
    simp only [merge_files] at hm
    rcases List.mem_append.1 hm with hm | hend
    case inr => rcases List.mem_singleton.1 hend with rfl; rfl
    rcases List.mem_append.1 hm with hm | hstart
    case inr => rcases List.mem_singleton.1 hstart with rfl; rfl
    exact merge_foldl_no_compare _ _ (by simp) x hm
  rcases List.mem_append.1 hx with hg | he
  case inr =>
    simp only [estimate_total_size] at he
    rcases List.mem_append.1 he with he | hte
    case inr => rcases List.mem_singleton.1 hte with rfl; rfl
    exact est_foldl_no_compare sz _ _ (by simp) x he
  exact gather_foldl_no_compare pat walk _ (by simp) x hg

/-- C5 witness: on the concrete failing run, compare is not invoked,
and the overall-failure line that is emitted is not a compare line. -/
theorem merge_failure_skips_compare_witness :
    (main_flow demoPat demoWalk demoSz demoOut false).compareInvoked = false
  ∧ LogEntry.isCompareEntry LogEntry.overallFailed = false :=
  ⟨(merge_failure_skips_compare demoPat demoWalk demoSz demoOut).1,
   (merge_failure_skips_compare demoPat demoWalk demoSz demoOut).2
     LogEntry.overallFailed (by decide)⟩

/-- C6: for a storage root whose listing yields the subdirectories
`subdirs`, local mode emits exactly one orchestrator-invocation line per
subdirectory, and batch mode emits exactly one job stanza (one
`arguments` line closed by one `queue` directive) per subdirectory. -/
theorem generator_emits_one_stanza_per_subdir
    (storage_path scriptForMerge pat : Str) (subdirs : List Str) :
    (((generate_local_merge_script storage_path scriptForMerge pat subdirs).content).filter
        ScriptLine.isInvoke).length = subdirs.length
  ∧ (((generate_condorMerge_submission_file storage_path scriptForMerge pat subdirs).content).filter
        SubLine.isQueue).length = subdirs.length
  ∧ (((generate_condorMerge_submission_file storage_path scriptForMerge pat subdirs).content).filter
        SubLine.isArguments).length = subdirs.length := by
  refine ⟨?_, ?_, ?_⟩
  · simp only [generate_local_merge_script]
    rw [List.filter_append, List.length_append,
      local_foldl_invoke_count storage_path pat subdirs]
    simp [ScriptLine.isInvoke]
  · simp only [generate_condorMerge_submission_file]
    rw [(condor_foldl_counts storage_path pat subdirs _).1]
    simp [SubLine.isQueue]
  · simp only [generate_condorMerge_submission_file]
    rw [(condor_foldl_counts storage_path pat subdirs _).2]
    simp [SubLine.isArguments]

/-- C7: on a successful stat of the output file, `compare_sizes` returns
the output file's size and logs the signed difference computed as the
actual output size minus the pre-merge estimate. -/
theorem compare_sizes_signed_difference (sz : Str → Option Nat) (out : Str)
    (est final : Nat) (h : sz out = some final) :
    (compare_sizes sz out est).1 = some final
  ∧ LogEntry.sizeDiff ((final : Int) - (est : Int)) ∈ (compare_sizes sz out est).2 := by
  unfold compare_sizes
  rw [h]
  exact ⟨rfl, by simp⟩

/-- C7 witness: with a 2000-byte estimate from two 1000-byte files and a
1900-byte merged output, the logged difference is -100 bytes. -/
theorem compare_sizes_signed_difference_witness :
    (estimate_total_size demoSz
        [pathJoin demoDir (("out_1.root").data),
         pathJoin demoDir (("out_2.root").data)]).1 = 2000
  ∧ ((1900 : Int) - (2000 : Int)) = -100
  ∧ LogEntry.sizeDiff ((1900 : Int) - (2000 : Int))
      ∈ (compare_sizes demoSz demoOut 2000).2 :=
  ⟨by decide, by decide,
   (compare_sizes_signed_difference demoSz demoOut 2000 1900 (by decide)).2⟩

/-- C8: a per-file stat failure during size estimation never aborts the
pass: the total still accounts for every file whose stat succeeds (a
failure contributes nothing), and each failure is logged. -/
theorem estimate_total_size_fault_tolerant (sz : Str → Option Nat)
    (files : List Str) :
    (estimate_total_size sz files).1
      = (files.map (fun f => (sz f).getD 0)).sum
  ∧ ∀ f ∈ files, sz f = none →
      LogEntry.sizeFail f ∈ (estimate_total_size sz files).2 := by
  refine ⟨estimate_total_size_total sz files, ?_⟩
  intro f hf hnone
  simp only [estimate_total_size]
  exact List.mem_append.2 (Or.inl (est_foldl_sizeFail sz files (0, []) f hf hnone))

/-- C8 witness: with a file whose stat fails between the two good demo
files, the pass still totals 2000 bytes and logs the failure. -/
theorem estimate_total_size_fault_tolerant_witness :
    (estimate_total_size demoSz
        [pathJoin demoDir (("out_1.root").data),
         pathJoin demoDir (("ghost.root").data),
         pathJoin demoDir (("out_2.root").data)]).1
      = ([pathJoin demoDir (("out_1.root").data),
          pathJoin demoDir (("ghost.root").data),
          pathJoin demoDir (("out_2.root").data)].map
            (fun f => (demoSz f).getD 0)).sum
  ∧ LogEntry.sizeFail (pathJoin demoDir (("ghost.root").data))
      ∈ (estimate_total_size demoSz
          [pathJoin demoDir (("out_1.root").data),
           pathJoin demoDir (("ghost.root").data),
           pathJoin demoDir (("out_2.root").data)]).2 :=
  ⟨(estimate_total_size_fault_tolerant demoSz _).1,
   (estimate_total_size_fault_tolerant demoSz _).2
     (pathJoin demoDir (("ghost.root").data)) (by decide) (by decide)⟩

/-- C9: after local-mode generation, the artifact's permission bits are
0755, so the execute bit is set for owner (bit 6), group (bit 3) and
others (bit 0). -/
theorem local_script_mode_0755 (storage_path scriptForMerge pat : Str)
    (subdirs : List Str) :
    (generate_local_merge_script storage_path scriptForMerge pat subdirs).mode = 0o755
  ∧ Nat.testBit
      (generate_local_merge_script storage_path scriptForMerge pat subdirs).mode 6 = true
  ∧ Nat.testBit
      (generate_local_merge_script storage_path scriptForMerge pat subdirs).mode 3 = true
  ∧ Nat.testBit
      (generate_local_merge_script storage_path scriptForMerge pat subdirs).mode 0 = true := by
  have hm : (generate_local_merge_script storage_path scriptForMerge pat subdirs).mode
      = 0o755 := rfl
  refine ⟨hm, ?_, ?_, ?_⟩ <;> (rw [hm]; decide)

/-- C10: `gather_files` is not idempotent: a second call on an unchanged
filesystem appends the same matches again, so every file then appears
exactly twice in `all_files` and the subsequent size estimate doubles. -/
theorem gather_files_not_idempotent (pat : Str) (walk : List (Str × List Str)) :
    (∀ f : Str,
      (gather_files pat walk (gather_files pat walk ⟨[], []⟩).1).1.all_files.count f
        = 2 * (gather_files pat walk ⟨[], []⟩).1.all_files.count f)
  ∧ ∀ sz : Str → Option Nat,
      (estimate_total_size sz
          (gather_files pat walk (gather_files pat walk ⟨[], []⟩).1).1.all_files).1
        = 2 * (estimate_total_size sz
            (gather_files pat walk ⟨[], []⟩).1.all_files).1 := by
  have h1 : (gather_files pat walk ⟨[], []⟩).1.all_files = gatheredFiles pat walk := by
    rw [gather_files_all_files, List.nil_append]
  have h2 : (gather_files pat walk (gather_files pat walk ⟨[], []⟩).1).1.all_files
      = gatheredFiles pat walk ++ gatheredFiles pat walk := by
    rw [gather_files_all_files, h1]
  constructor
  · intro f
    rw [h1, h2, List.count_append]
    omega
  · intro sz
    rw [h1, h2, estimate_total_size_total, estimate_total_size_total]
    simp
    omega
